import Mathlib

/-!
Verification of the token-and-session lifecycle subsystem of the
Node.js boilerplate repository: a shallow embedding in Lean of
`TokenService` (JWT issuance, verification, refresh, revocation) and
`SessionService` (session records in a key-value store), together with
proofs of the specification's claims about them.

Modelling conventions:
* Wall-clock time is an explicit `Nat` argument (`TokenService` works in
  epoch seconds, `SessionService` in epoch milliseconds, mirroring
  `Math.floor(Date.now() / 1000)` versus `Date.getTime()` in the source).
* The Redis client is modelled as an association list of entries carrying
  the value, the TTL in seconds passed to `setEx`, and the write time.
  A `scale` parameter converts the seconds TTL into the owning service's
  clock unit (1 for the seconds-clocked revocation registry, 1000 for the
  milliseconds-clocked session registry).  Redis holds both namespaces in
  one keyspace, but the prefixes `token:revoked:` and `session:` are
  disjoint, so the two registries are modelled as two separate stores.
* Signed JWTs are modelled symbolically: a token is its payload plus the
  secret it was signed with, and `jwt.verify` succeeds exactly when the
  secrets coincide and the token is unexpired (`jsonwebtoken` rejects a
  token once the clock reaches `exp`).  Raw token strings are represented
  by the token values themselves (serialization is injective).
* Fallible Redis calls take an extra `Option String` argument: `some msg`
  means the call raises an error with that message, `none` means it
  succeeds.  This makes the `try`/`catch` structure of the source explicit.
-/

/-! ## Key-value store (Redis client model) -/

/-- One stored value: the payload, the TTL in seconds that was passed to
`setEx`, and the clock reading at which the write happened. -/
structure KVEntry (α : Type) where
  value : α
  ttlSeconds : Nat
  writtenAt : Nat
deriving Repr, DecidableEq

/-- The key-value store: an association list from keys to entries.  Redis
keeps at most one binding per key; stores reachable by the modelled
operations satisfy `NodupKeys` below. -/
structure KVStore (κ : Type) (α : Type) where
  entries : List (κ × KVEntry α)
deriving Repr, DecidableEq

namespace KVStore

variable {κ α : Type} [DecidableEq κ]

/-- An entry is alive at time `now` when fewer than `ttlSeconds` seconds
have elapsed since the write; `scale` is the number of clock units per
second (Redis expires the key once the TTL has fully elapsed). -/
def livesAt (scale : Nat) (e : KVEntry α) (now : Nat) : Bool :=
  now < e.writtenAt + e.ttlSeconds * scale

/-- The raw binding for a key, TTL ignored. -/
def findEntry (st : KVStore κ α) (k : κ) : Option (KVEntry α) :=
  (st.entries.find? (fun p => decide (p.1 = k))).map (·.2)

/-- Redis GET: the value, provided the key exists and has not expired. -/
def get (scale : Nat) (st : KVStore κ α) (now : Nat) (k : κ) : Option α :=
  match st.findEntry k with
  | some e => if livesAt scale e now then some e.value else none
  | none => none

/-- Redis SETEX: bind `k` to `v`, replacing any previous binding. -/
def setEx (st : KVStore κ α) (now ttl : Nat) (k : κ) (v : α) : KVStore κ α :=
  ⟨(k, ⟨v, ttl, now⟩) :: st.entries.filter (fun p => !decide (p.1 = k))⟩

/-- Redis DEL. -/
def del (st : KVStore κ α) (k : κ) : KVStore κ α :=
  ⟨st.entries.filter (fun p => !decide (p.1 = k))⟩

/-- Redis KEYS over the store's whole namespace: the keys whose
entries are alive at `now` (Redis never returns expired keys). -/
def keysLive (scale : Nat) (st : KVStore κ α) (now : Nat) : List κ :=
  (st.entries.filter (fun p => livesAt scale p.2 now)).map (·.1)

/-- Well-formedness: at most one binding per key, as in actual Redis. -/
def NodupKeys (st : KVStore κ α) : Prop :=
  (st.entries.map (·.1)).Nodup

instance (st : KVStore κ α) : Decidable st.NodupKeys := by
  unfold NodupKeys
  infer_instance

end KVStore

/-! ## JWT model (`jsonwebtoken` contract) -/

/-- The decoded claim set of a token (`TokenPayload` in
`src/types/common.d.ts`, with the refresh tokens' `type` tag and the
optional claims made explicit).  `exp` is optional because `jwt.decode`
can return a payload without an `exp` claim. -/
structure TokenPayload where
  userId : String
  email : Option String := none
  roles : Option (List String) := none
  tokType : Option String := none
  iat : Nat := 0
  exp : Option Nat := none
deriving Repr, DecidableEq

/-- A signed token: its payload together with the secret that signed it.
Signature verification is modelled as equality of secrets. -/
structure SignedToken where
  payload : TokenPayload
  secret : String
deriving Repr, DecidableEq

/-- Model of `jwt.sign(payload, secret, ...)` with an expiry option:
stamps `iat = now` and
`exp = now + expiresIn` (seconds) into the claims. -/
def jwtSign (userId : String) (email : Option String)
    (roles : Option (List String)) (tokType : Option String)
    (secret : String) (now expiresInSec : Nat) : SignedToken :=
  ⟨⟨userId, email, roles, tokType, now, some (now + expiresInSec)⟩, secret⟩

/-- Model of `jwt.decode(token)`: reads the payload without any
signature check. -/
def jwtDecode (t : SignedToken) : Option TokenPayload :=
  some t.payload

/-- Model of `jwt.verify(token, secret)`: fails on a signature
mismatch, and with
`TokenExpiredError` once the clock reaches the `exp` claim. -/
def jwtVerify (t : SignedToken) (secret : String) (now : Nat) :
    Except String TokenPayload :=
  if t.secret ≠ secret then .error "invalid signature"
  else
    match t.payload.exp with
    | some e => if e ≤ now then .error "jwt expired" else .ok t.payload
    | none => .ok t.payload

/-- Equality of `Except` results is decidable when both component types
have decidable equality (needed to evaluate claims on concrete inputs). -/
instance {ε α : Type} [DecidableEq ε] [DecidableEq α] :
    DecidableEq (Except ε α) := fun x y =>
  match x, y with
  | .ok a, .ok b =>
    if h : a = b then isTrue (by rw [h])
    else isFalse (by intro hc; cases hc; exact h rfl)
  | .error a, .error b =>
    if h : a = b then isTrue (by rw [h])
    else isFalse (by intro hc; cases hc; exact h rfl)
  | .ok _, .error _ => isFalse (by intro hc; cases hc)
  | .error _, .ok _ => isFalse (by intro hc; cases hc)

/-! ## Configuration and errors -/

/-- The security section of the application config (`SecurityConfig`),
restricted to the fields the token service reads.  The expiry strings
`"15m"` / `"7d"` are modelled already parsed into seconds, so the default
access expiry is `900` and the default refresh expiry `604800`. -/
structure SecurityConfig where
  jwtAccessSecret : String
  jwtRefreshSecret : String
  jwtAccessExpiry : Nat
  jwtRefreshExpiry : Nat
deriving Repr, DecidableEq

/-- Errors surfaced by the embedded services: `authentication` is the
`AuthenticationError` of `@utils/errors`; `jwtVerifyFailure` stands for
the raw `jsonwebtoken` exceptions before a service wraps them. -/
inductive SvcError where
  | authentication (message : String)
  | jwtVerifyFailure (message : String)
deriving Repr, DecidableEq

/-! ## TokenService -/

namespace TokenService

/-- The revocation registry: denylist entries keyed by the raw token
string (namespace `token:revoked:`), value the sentinel `"1"`. -/
abbrev RevStore := KVStore SignedToken String

/-- Embeds `TokenService.generateAccessToken`: signs
`{ userId, email, roles }` with the access secret and the configured
access expiry. -/
def generateAccessToken (cfg : SecurityConfig) (now : Nat)
    (userId email : String) (roles : List String) : SignedToken :=
  jwtSign userId (some email) (some roles) none cfg.jwtAccessSecret now
    cfg.jwtAccessExpiry

/-- Embeds `TokenService.generateRefreshToken`: signs
`{ userId, type: "refresh" }` with the distinct refresh secret and the
configured refresh expiry. -/
def generateRefreshToken (cfg : SecurityConfig) (now : Nat)
    (userId : String) : SignedToken :=
  jwtSign userId none none (some "refresh") cfg.jwtRefreshSecret now
    cfg.jwtRefreshExpiry

/-- The token pair returned by `generateTokenPair` (`AuthTokens`). -/
structure AuthTokens where
  accessToken : SignedToken
  refreshToken : SignedToken
  expiresIn : Nat
deriving Repr, DecidableEq

/-- The ternary expression `decoded.exp ? (decoded.exp - decoded.iat) * 1000 : 0`:
a missing or zero (falsy) `exp` claim yields `0`. -/
def tokenExpiresIn (p : TokenPayload) : Nat :=
  match p.exp with
  | some e => if e = 0 then 0 else (e - p.iat) * 1000
  | none => 0

/-- Embeds `TokenService.generateTokenPair`: issues both tokens, then derives
`expiresIn` from the claims decoded out of the access token itself. -/
def generateTokenPair (cfg : SecurityConfig) (now : Nat)
    (userId email : String) (roles : List String) : AuthTokens :=
  let accessToken := generateAccessToken cfg now userId email roles
  let refreshToken := generateRefreshToken cfg now userId
  let expiresIn :=
    match jwtDecode accessToken with
    | some decoded => tokenExpiresIn decoded
    | none => 0
  ⟨accessToken, refreshToken, expiresIn⟩

/-- Embeds `TokenService.verifyToken`: verifies against
`secret || config.security.jwtAccessSecret` (a `none` or empty secret
falls back to the access secret) and normalizes every failure to
an `AuthenticationError` with message `Invalid or expired token`. -/
def verifyToken (cfg : SecurityConfig) (now : Nat) (t : SignedToken)
    (secret : Option String) : Except SvcError TokenPayload :=
  let sec :=
    match secret with
    | some s => if s = "" then cfg.jwtAccessSecret else s
    | none => cfg.jwtAccessSecret
  match jwtVerify t sec now with
  | .ok decoded => .ok decoded
  | .error _ => .error (.authentication "Invalid or expired token")

/-- Embeds `TokenService.isTokenRevoked`: reads `token:revoked:<token>`; reports
revoked exactly on the sentinel value `"1"`; a store error (`readFail =
some msg`) is caught, logged, and converted to `false` (fail open). -/
def isTokenRevoked (st : RevStore) (now : Nat) (readFail : Option String)
    (t : SignedToken) : Bool :=
  match readFail with
  | some _ => false
  | none => decide (KVStore.get 1 st now t = some "1")

/-- Embeds `TokenService.revokeToken`: decodes the token (no signature check),
returns without writing when the `exp` claim is missing (the source's
falsy test `!decoded.exp` also skips `exp = 0`, which the `ttl > 0` guard
would reject anyway) and otherwise writes the denylist entry with
`ttl = exp - now` whenever that is positive.  A store error
(`writeFail = some msg`) is caught and swallowed. -/
def revokeToken (st : RevStore) (now : Nat) (writeFail : Option String)
    (t : SignedToken) : RevStore :=
  match jwtDecode t with
  | none => st
  | some decoded =>
    match decoded.exp with
    | none => st
    | some e =>
      let ttl : Int := (e : Int) - (now : Int)
      if 0 < ttl then
        match writeFail with
        | some _ => st
        | none => KVStore.setEx st now ttl.toNat t "1"
      else st

/-- The body of the `try` block of `TokenService.refreshAccessToken`:
verify against the refresh secret, reject a wrong `type` claim, reject a
revoked token, then mint a fresh access token carrying only `userId`. -/
def refreshBody (cfg : SecurityConfig) (rev : RevStore) (now : Nat)
    (readFail : Option String) (t : SignedToken) :
    Except SvcError (SignedToken × Nat) :=
  match jwtVerify t cfg.jwtRefreshSecret now with
  | .error m => .error (.jwtVerifyFailure m)
  | .ok decoded =>
    if decoded.tokType ≠ some "refresh" then
      .error (.authentication "Invalid token type")
    else if isTokenRevoked rev now readFail t then
      .error (.authentication "Token has been revoked")
    else
      let accessToken :=
        jwtSign decoded.userId none none none cfg.jwtAccessSecret now
          cfg.jwtAccessExpiry
      let expiresIn :=
        match jwtDecode accessToken with
        | some d => tokenExpiresIn d
        | none => 0
      .ok (accessToken, expiresIn)

/-- Embeds `TokenService.refreshAccessToken`: the surrounding `catch` rethrows
every failure — including the `AuthenticationError`s thrown inside the
`try` — as an `AuthenticationError` with message
`Failed to refresh token`. -/
def refreshAccessToken (cfg : SecurityConfig) (rev : RevStore) (now : Nat)
    (readFail : Option String) (t : SignedToken) :
    Except SvcError (SignedToken × Nat) :=
  match refreshBody cfg rev now readFail t with
  | .ok r => .ok r
  | .error _ => .error (.authentication "Failed to refresh token")

end TokenService

/-! ## SessionService -/

/-- A session record (`Session` in `session.service.ts`); times are epoch
milliseconds (`Date`). -/
structure Session where
  id : String
  userId : String
  createdAt : Nat
  expiresAt : Nat
  lastActivityAt : Nat
  ipAddress : Option String := none
  userAgent : Option String := none
deriving Repr, DecidableEq

namespace SessionService

/-- Session records keyed by session id (namespace `session:`); the JSON
serialization round-trips every field, so values are `Session` records. -/
abbrev SessStore := KVStore String Session

/-- The `SESSION_TTL` constant: 7 days, in seconds. -/
def SESSION_TTL : Nat := 7 * 24 * 60 * 60

/-- Embeds `SessionService.createSession`: the fresh UUID is passed in as
`sessionId`; `createdAt = lastActivityAt = now`,
`expiresAt = now + SESSION_TTL * 1000`, written with the full TTL. -/
def createSession (st : SessStore) (nowMs : Nat) (sessionId userId : String)
    (ipAddress userAgent : Option String) : SessStore × Session :=
  let session : Session :=
    ⟨sessionId, userId, nowMs, nowMs + SESSION_TTL * 1000, nowMs,
      ipAddress, userAgent⟩
  (KVStore.setEx st nowMs SESSION_TTL sessionId session, session)

/-- Embeds `SessionService.getSession`: a plain read; an absent or expired key
is the normal `null` outcome. -/
def getSession (st : SessStore) (nowMs : Nat) (sessionId : String) :
    Option Session :=
  KVStore.get 1000 st nowMs sessionId

/-- Embeds `SessionService.updateActivity`: re-read, bump `lastActivityAt` only,
rewrite with the TTL reset to the full window; no-op when absent. -/
def updateActivity (st : SessStore) (nowMs : Nat) (sessionId : String) :
    SessStore :=
  match getSession st nowMs sessionId with
  | none => st
  | some s =>
    KVStore.setEx st nowMs SESSION_TTL sessionId
      { s with lastActivityAt := nowMs }

/-- Embeds `SessionService.revokeSession`: deletes the key outright. -/
def revokeSession (st : SessStore) (sessionId : String) : SessStore :=
  KVStore.del st sessionId

/-- Embeds `SessionService.revokeAllUserSessions`: scan `session:*`, read each
key, delete the sessions whose `userId` matches.  Each live key occurs
once in the scan and is read before any iteration deletes it, so the
loop's reads observe the pre-scan store. -/
def revokeAllUserSessions (st : SessStore) (nowMs : Nat) (userId : String) :
    SessStore :=
  (KVStore.keysLive 1000 st nowMs).foldl
    (fun acc k =>
      match KVStore.get 1000 st nowMs k with
      | some s => if s.userId = userId then KVStore.del acc k else acc
      | none => acc)
    st

/-- Embeds `SessionService.getUserSessions`: scan `session:*`, read each key,
collect the sessions whose `userId` matches. -/
def getUserSessions (st : SessStore) (nowMs : Nat) (userId : String) :
    List Session :=
  (KVStore.keysLive 1000 st nowMs).filterMap
    (fun k =>
      match KVStore.get 1000 st nowMs k with
      | some s => if s.userId = userId then some s else none
      | none => none)

end SessionService

/-! ## Store lemmas -/

/-- After `setEx`, the key's binding is the entry just written. -/
theorem KVStore.findEntry_setEx {κ α : Type} [DecidableEq κ]
    (st : KVStore κ α) (now ttl : Nat) (k : κ) (v : α) :
    (st.setEx now ttl k v).findEntry k = some ⟨v, ttl, now⟩ := by
  simp [KVStore.findEntry, KVStore.setEx, List.find?]

/-- Reading a key straight after `setEx`, within the TTL window, returns
the value just written. -/
theorem KVStore.get_setEx {κ α : Type} [DecidableEq κ] (scale : Nat)
    (st : KVStore κ α) (now ttl : Nat) (k : κ) (v : α)
    (h : now < now + ttl * scale) :
    KVStore.get scale (st.setEx now ttl k v) now k = some v := by
  simp [KVStore.get, KVStore.findEntry_setEx, KVStore.livesAt, h]

/-! ## Claims -/

/-- Claim C2: `isTokenRevoked` fails open — a store read error yields
`false` rather than propagating — and otherwise reports revoked exactly
on an exact-match hit of the denylist sentinel `"1"`. -/
theorem claim_C2_isTokenRevoked_fails_open (st : TokenService.RevStore)
    (now : Nat) (msg : String) (t : SignedToken) :
    TokenService.isTokenRevoked st now (some msg) t = false ∧
      (TokenService.isTokenRevoked st now none t = true ↔
        KVStore.get 1 st now t = some "1") := by
  constructor
  · rfl
  · simp [TokenService.isTokenRevoked]

/-- Claim C7: the `expiresIn` reported by `generateTokenPair` equals
`(exp - iat) * 1000` computed from the claims decoded out of the issued
access token itself, and equals `900000` under the default 15-minute
access expiry. -/
theorem claim_C7_expiresIn_from_decoded_claims (cfg : SecurityConfig)
    (now : Nat) (userId email : String) (roles : List String) :
    ((jwtDecode (TokenService.generateTokenPair cfg now userId email
          roles).accessToken).bind
        (fun p => p.exp.map (fun e => (e - p.iat) * 1000)))
      = some (TokenService.generateTokenPair cfg now userId email
          roles).expiresIn ∧
      (cfg.jwtAccessExpiry = 900 →
        (TokenService.generateTokenPair cfg now userId email
            roles).expiresIn = 900000) := by
  constructor
  · simp only [TokenService.generateTokenPair, TokenService.generateAccessToken,
      TokenService.tokenExpiresIn, jwtSign, jwtDecode, Option.bind, Option.map]
    by_cases h : now + cfg.jwtAccessExpiry = 0
    · simp [h]
    · simp [h]
  · intro h
    simp only [TokenService.generateTokenPair, TokenService.generateAccessToken,
      TokenService.tokenExpiresIn, jwtSign, jwtDecode, h]
    have h2 : now + 900 ≠ 0 := by omega
    simp [h2]

/-- Claim C6: verifying a freshly generated access token against the
access secret at the same instant returns exactly the input claims, and
verification fails with `AuthenticationError` once the clock reaches the
configured access TTL. -/
theorem claim_C6_access_token_round_trip (cfg : SecurityConfig) (now : Nat)
    (userId email : String) (roles : List String)
    (hpos : 0 < cfg.jwtAccessExpiry) :
    TokenService.verifyToken cfg now
        (TokenService.generateAccessToken cfg now userId email roles) none
      = .ok ⟨userId, some email, some roles, none, now,
          some (now + cfg.jwtAccessExpiry)⟩ ∧
      ∀ later, now + cfg.jwtAccessExpiry ≤ later →
        TokenService.verifyToken cfg later
            (TokenService.generateAccessToken cfg now userId email roles) none
          = .error (.authentication "Invalid or expired token") := by
  constructor
  · have hne : ¬ (now + cfg.jwtAccessExpiry ≤ now) := by omega
    simp [TokenService.verifyToken, TokenService.generateAccessToken, jwtSign,
      jwtVerify, hne]
  · intro later hlater
    simp [TokenService.verifyToken, TokenService.generateAccessToken, jwtSign,
      jwtVerify, hlater]

/-- Witness for C6 at a concrete input. -/
theorem claim_C6_witness :
    TokenService.verifyToken ⟨"acc-secret", "ref-secret", 900, 604800⟩ 0
        (TokenService.generateAccessToken
          ⟨"acc-secret", "ref-secret", 900, 604800⟩ 0 "u1" "u1@x.com"
          ["user"]) none
      = .ok ⟨"u1", some "u1@x.com", some ["user"], none, 0, some 900⟩ ∧
      TokenService.verifyToken ⟨"acc-secret", "ref-secret", 900, 604800⟩ 900
        (TokenService.generateAccessToken
          ⟨"acc-secret", "ref-secret", 900, 604800⟩ 0 "u1" "u1@x.com"
          ["user"]) none
      = .error (.authentication "Invalid or expired token") := by
  have h := claim_C6_access_token_round_trip
    ⟨"acc-secret", "ref-secret", 900, 604800⟩ 0 "u1" "u1@x.com" ["user"]
    (by decide)
  exact ⟨h.1, h.2 900 (by decide)⟩

/-- Witness for C7 at a concrete input. -/
theorem claim_C7_witness :
    (TokenService.generateTokenPair ⟨"a", "r", 900, 604800⟩ 1000 "u1"
        "u1@x.com" ["user"]).expiresIn = 900000 := by
  exact (claim_C7_expiresIn_from_decoded_claims ⟨"a", "r", 900, 604800⟩ 1000
    "u1" "u1@x.com" ["user"]).2 rfl

/-- Claim C4: a token that verifies against the refresh secret but whose
`type` claim is not `"refresh"` makes `refreshAccessToken` fail with an
`AuthenticationError` (the inner `Invalid token type` error is rethrown
by the catch-all as `Failed to refresh token`); no access token is
minted. -/
theorem claim_C4_wrong_kind_rejected (cfg : SecurityConfig)
    (rev : TokenService.RevStore) (now : Nat) (readFail : Option String)
    (t : SignedToken) (p : TokenPayload)
    (hver : jwtVerify t cfg.jwtRefreshSecret now = .ok p)
    (htype : p.tokType ≠ some "refresh") :
    TokenService.refreshAccessToken cfg rev now readFail t
      = .error (.authentication "Failed to refresh token") := by
  simp [TokenService.refreshAccessToken, TokenService.refreshBody, hver, htype]

/-- Witness for C4 at a concrete input: an access-style token signed with
the refresh secret. -/
theorem claim_C4_witness :
    TokenService.refreshAccessToken ⟨"a", "r", 900, 604800⟩ ⟨[]⟩ 0 none
        (jwtSign "u1" none none none "r" 0 900)
      = .error (.authentication "Failed to refresh token") := by
  exact claim_C4_wrong_kind_rejected ⟨"a", "r", 900, 604800⟩ ⟨[]⟩ 0 none
    (jwtSign "u1" none none none "r" 0 900)
    ⟨"u1", none, none, none, 0, some 900⟩ (by decide) (by decide)

/-- Counterexample to claim C3 as stated: for a revoked refresh token the
caller receives an `AuthenticationError` with message
`Failed to refresh token` — the
inner `Token has been revoked` error is swallowed by the catch-all — so
the error does not carry the message the claim names. -/
theorem claim_C3_counterexample :
    TokenService.refreshAccessToken ⟨"a", "r", 900, 604800⟩
        (TokenService.revokeToken ⟨[]⟩ 0 none
          (TokenService.generateRefreshToken ⟨"a", "r", 900, 604800⟩ 0 "u1"))
        100 none
        (TokenService.generateRefreshToken ⟨"a", "r", 900, 604800⟩ 0 "u1")
      = .error (.authentication "Failed to refresh token") ∧
      TokenService.refreshAccessToken ⟨"a", "r", 900, 604800⟩
        (TokenService.revokeToken ⟨[]⟩ 0 none
          (TokenService.generateRefreshToken ⟨"a", "r", 900, 604800⟩ 0 "u1"))
        100 none
        (TokenService.generateRefreshToken ⟨"a", "r", 900, 604800⟩ 0 "u1")
      ≠ .error (.authentication "Token has been revoked") := by
  constructor
  · rfl
  · decide

/-- Claim C3 amended: for a verifying refresh token that the revocation
registry reports revoked, `refreshAccessToken` fails with an
`AuthenticationError`, whose message is the catch-all's
`Failed to refresh token` (the revocation-specific message is internal). -/
theorem claim_C3_revoked_refresh_rejected (cfg : SecurityConfig)
    (rev : TokenService.RevStore) (now : Nat) (readFail : Option String)
    (t : SignedToken) (p : TokenPayload)
    (hver : jwtVerify t cfg.jwtRefreshSecret now = .ok p)
    (htype : p.tokType = some "refresh")
    (hrev : TokenService.isTokenRevoked rev now readFail t = true) :
    TokenService.refreshAccessToken cfg rev now readFail t
      = .error (.authentication "Failed to refresh token") := by
  simp [TokenService.refreshAccessToken, TokenService.refreshBody, hver, htype,
    hrev]

/-- Witness for the amended C3 at a concrete input. -/
theorem claim_C3_witness :
    TokenService.refreshAccessToken ⟨"a", "r", 900, 604800⟩
        (TokenService.revokeToken ⟨[]⟩ 0 none
          (TokenService.generateRefreshToken ⟨"a", "r", 900, 604800⟩ 0 "u1"))
        100 none
        (TokenService.generateRefreshToken ⟨"a", "r", 900, 604800⟩ 0 "u1")
      = .error (.authentication "Failed to refresh token") := by
  exact claim_C3_revoked_refresh_rejected _ _ _ _ _
    ⟨"u1", none, none, some "refresh", 0, some 604800⟩ (by decide) (by decide)
    (by decide)

/-- Claim C9: a successful `refreshAccessToken` mints an access token
whose claim set carries only the `userId` taken from the verified refresh
token — no `email`, `roles`, or `type` claims. -/
theorem claim_C9_refresh_minimal_claims (cfg : SecurityConfig)
    (rev : TokenService.RevStore) (now : Nat) (readFail : Option String)
    (t tok2 : SignedToken) (n : Nat)
    (hok : TokenService.refreshAccessToken cfg rev now readFail t
      = .ok (tok2, n)) :
    tok2.payload.email = none ∧ tok2.payload.roles = none ∧
      tok2.payload.tokType = none ∧
      ∃ p, jwtVerify t cfg.jwtRefreshSecret now = .ok p ∧
        tok2.payload.userId = p.userId := by
  unfold TokenService.refreshAccessToken at hok
  split at hok
  next r hbody =>
    unfold TokenService.refreshBody at hbody
    split at hbody
    next m hver => cases hbody
    next decoded hver =>
      split at hbody
      · cases hbody
      · split at hbody
        · cases hbody
        · cases hbody
          cases hok
          refine ⟨rfl, rfl, rfl, decoded, hver, rfl⟩
  next e hbody => cases hok

/-- Witness for C9 at a concrete input: a fresh, unrevoked refresh token
refreshes successfully into a minimal-claim access token. -/
theorem claim_C9_witness :
    (jwtSign "u1" none none none "a" 100 900).payload.email = none := by
  exact (claim_C9_refresh_minimal_claims ⟨"a", "r", 900, 604800⟩ ⟨[]⟩ 100 none
    (TokenService.generateRefreshToken ⟨"a", "r", 900, 604800⟩ 0 "u1")
    (jwtSign "u1" none none none "a" 100 900) 900000 (by decide)).1

/-- Claim C1: revoking a token whose `exp` lies strictly in the future
writes a denylist entry keyed by the token with `ttl = exp - now`, so
`isTokenRevoked` reports `true` for as long as the entry is alive and the
entry is gone from reads at and after the token's own expiry; a token
without an `exp` claim, or one already expired, is never written. -/
theorem claim_C1_revocation_entry_ttl (st : TokenService.RevStore)
    (now : Nat) (t : SignedToken) :
    (∀ e, t.payload.exp = some e → now < e →
      KVStore.findEntry (TokenService.revokeToken st now none t) t
          = some ⟨"1", e - now, now⟩ ∧
        (∀ t2, now ≤ t2 → t2 < e →
          TokenService.isTokenRevoked (TokenService.revokeToken st now none t)
            t2 none t = true) ∧
        (∀ t2, e ≤ t2 →
          KVStore.get 1 (TokenService.revokeToken st now none t) t2 t
            = none)) ∧
      (t.payload.exp = none → ∀ writeFail,
        TokenService.revokeToken st now writeFail t = st) ∧
      (∀ e, t.payload.exp = some e → e ≤ now → ∀ writeFail,
        TokenService.revokeToken st now writeFail t = st) := by
  refine ⟨?_, ?_, ?_⟩
  · intro e hexp hfut
    have httl : (0 : Int) < (e : Int) - (now : Int) := by omega
    have htn : ((e : Int) - (now : Int)).toNat = e - now := by omega
    refine ⟨?_, ?_, ?_⟩
    · simp [TokenService.revokeToken, jwtDecode, hexp, httl, htn,
        KVStore.setEx, KVStore.findEntry, List.find?]
    · intro t2 hlo hhi
      simp only [TokenService.revokeToken, jwtDecode, hexp, httl, htn,
        KVStore.setEx, KVStore.findEntry, List.find?,
        TokenService.isTokenRevoked, KVStore.get, KVStore.livesAt, if_true,
        decide_eq_true_eq]
      simp
      omega
    · intro t2 hge
      simp only [TokenService.revokeToken, jwtDecode, hexp, httl, htn,
        KVStore.setEx, KVStore.findEntry, List.find?, KVStore.get,
        KVStore.livesAt, if_true, decide_eq_true_eq]
      simp
      omega
  · intro hexp writeFail
    simp [TokenService.revokeToken, jwtDecode, hexp]
  · intro e hexp hpast writeFail
    have httl : ¬ ((0 : Int) < (e : Int) - (now : Int)) := by omega
    simp [TokenService.revokeToken, jwtDecode, hexp, httl]

/-- Witness for C1 at a concrete input: revoke at 100 a token expiring at
200; the entry's TTL is 100, the token reads as revoked at 150, and the
entry is expired at 200. -/
theorem claim_C1_witness :
    KVStore.findEntry
        (TokenService.revokeToken ⟨[]⟩ 100 none
          ⟨⟨"u1", none, none, some "refresh", 0, some 200⟩, "r"⟩)
        ⟨⟨"u1", none, none, some "refresh", 0, some 200⟩, "r"⟩
      = some ⟨"1", 100, 100⟩ ∧
      TokenService.isTokenRevoked
        (TokenService.revokeToken ⟨[]⟩ 100 none
          ⟨⟨"u1", none, none, some "refresh", 0, some 200⟩, "r"⟩)
        150 none ⟨⟨"u1", none, none, some "refresh", 0, some 200⟩, "r"⟩
      = true ∧
      KVStore.get 1
        (TokenService.revokeToken ⟨[]⟩ 100 none
          ⟨⟨"u1", none, none, some "refresh", 0, some 200⟩, "r"⟩)
        200 ⟨⟨"u1", none, none, some "refresh", 0, some 200⟩, "r"⟩
      = none := by
  have h := (claim_C1_revocation_entry_ttl ⟨[]⟩ 100
    ⟨⟨"u1", none, none, some "refresh", 0, some 200⟩, "r"⟩).1 200 rfl
    (by decide)
  exact ⟨h.1, h.2.1 150 (by decide) (by decide), h.2.2 200 (by decide)⟩

/-- Counterexample to claim C5 as stated: `updateActivity` rewrites the
record with the full 7-day TTL but leaves `expiresAt` unchanged, so for a
session created at time 0 and touched at time 1000 the stored TTL
(604800 s = 604800000 ms) no longer equals `expiresAt - now`
(604800000 - 1000 ms). -/
theorem claim_C5_counterexample :
    KVStore.findEntry
        (SessionService.updateActivity
          (SessionService.createSession ⟨[]⟩ 0 "s1" "u1" none none).1 1000
          "s1")
        "s1"
      = some ⟨⟨"s1", "u1", 0, 604800000, 1000, none, none⟩, 604800, 1000⟩ ∧
      ¬ (604800 * 1000 = 604800000 - 1000) := by
  constructor
  · rfl
  · decide

/-- Claim C5 amended: `createSession` writes the record with a TTL that
matches `expiresAt - now` exactly, while `updateActivity` rewrites the
record with the TTL reset to the full 7-day window and `expiresAt` left
at its original value (only `lastActivityAt` changes), so after a touch
the stored TTL can exceed the record's remaining `expiresAt - now`. -/
theorem claim_C5_ttl_at_write_time (st : SessionService.SessStore)
    (nowMs now2 : Nat) (sessionId userId : String)
    (ipAddress userAgent : Option String) :
    (KVStore.findEntry
          (SessionService.createSession st nowMs sessionId userId ipAddress
            userAgent).1 sessionId
        = some ⟨(SessionService.createSession st nowMs sessionId userId
            ipAddress userAgent).2, SessionService.SESSION_TTL, nowMs⟩ ∧
      SessionService.SESSION_TTL * 1000
        = (SessionService.createSession st nowMs sessionId userId ipAddress
            userAgent).2.expiresAt - nowMs) ∧
      ∀ s, SessionService.getSession st now2 sessionId = some s →
        KVStore.findEntry (SessionService.updateActivity st now2 sessionId)
            sessionId
          = some ⟨{ s with lastActivityAt := now2 },
              SessionService.SESSION_TTL, now2⟩ := by
  refine ⟨⟨?_, ?_⟩, ?_⟩
  · simp [SessionService.createSession, KVStore.setEx, KVStore.findEntry,
      List.find?]
  · simp [SessionService.createSession]
  · intro s hget
    simp [SessionService.updateActivity, hget, KVStore.setEx,
      KVStore.findEntry, List.find?]

/-- Witness for the amended C5 at a concrete input. -/
theorem claim_C5_witness :
    SessionService.SESSION_TTL * 1000
        = (SessionService.createSession ⟨[]⟩ 0 "s1" "u1" none
            none).2.expiresAt - 0 ∧
      KVStore.findEntry
        (SessionService.updateActivity
          (SessionService.createSession ⟨[]⟩ 0 "s1" "u1" none none).1 1000
          "s1")
        "s1"
      = some ⟨⟨"s1", "u1", 0, 604800000, 1000, none, none⟩, 604800, 1000⟩ := by
  constructor
  · exact (claim_C5_ttl_at_write_time ⟨[]⟩ 0 0 "s1" "u1" none none).1.2
  · exact (claim_C5_ttl_at_write_time
      (SessionService.createSession ⟨[]⟩ 0 "s1" "u1" none none).1 0 1000 "s1"
      "u1" none none).2 ⟨"s1", "u1", 0, 604800000, 0, none, none⟩ (by decide)

/-- Claim C10: `updateActivity` changes only `lastActivityAt`; reading
the session back immediately afterwards returns a record whose `id`,
`userId`, `createdAt`, `expiresAt`, `ipAddress` and `userAgent` all equal
their values before the call. -/
theorem claim_C10_updateActivity_frame (st : SessionService.SessStore)
    (nowMs : Nat) (sessionId : String) (s : Session)
    (hget : SessionService.getSession st nowMs sessionId = some s) :
    SessionService.getSession (SessionService.updateActivity st nowMs
        sessionId) nowMs sessionId
      = some ⟨s.id, s.userId, s.createdAt, s.expiresAt, nowMs, s.ipAddress,
          s.userAgent⟩ := by
  have hlt : nowMs < nowMs + SessionService.SESSION_TTL * 1000 := by
    have : 0 < SessionService.SESSION_TTL * 1000 := by
      norm_num [SessionService.SESSION_TTL]
    omega
  cases s
  unfold SessionService.updateActivity
  rw [hget]
  unfold SessionService.getSession
  rw [KVStore.get_setEx _ _ _ _ _ _ hlt]

/-- Witness for C10 at a concrete input. -/
theorem claim_C10_witness :
    SessionService.getSession
        (SessionService.updateActivity
          (SessionService.createSession ⟨[]⟩ 0 "s1" "u1" (some "1.2.3.4")
            (some "ua")).1 1000 "s1")
        1000 "s1"
      = some ⟨"s1", "u1", 0, 604800000, 1000, some "1.2.3.4", some "ua"⟩ := by
  exact claim_C10_updateActivity_frame
    (SessionService.createSession ⟨[]⟩ 0 "s1" "u1" (some "1.2.3.4")
      (some "ua")).1 1000 "s1"
    ⟨"s1", "u1", 0, 604800000, 0, some "1.2.3.4", some "ua"⟩ (by decide)

/-! ## Scan lemmas for the session registry -/

/-- Two fold functions that agree pointwise fold alike. -/
theorem foldl_fun_congr {α β : Type} (f g : α → β → α)
    (h : ∀ a b, f a b = g a b) (l : List β) (init : α) :
    l.foldl f init = l.foldl g init := by
  have hfg : f = g := funext fun a => funext fun b => h a b
  rw [hfg]

/-- A `filterMap` over a filtered list, pushed into one `filterMap`. -/
theorem filterMap_over_filter {α β : Type} (q : α → Bool) (f : α → Option β)
    (l : List α) :
    (l.filter q).filterMap f
      = l.filterMap (fun a => if q a then f a else none) := by
  induction l with
  | nil => rfl
  | cons a l ih =>
    by_cases hq : q a <;>
      simp [List.filter_cons, hq, List.filterMap_cons, ih]

/-- In a store with no duplicate keys, `find?` locates exactly the
binding any given member entry belongs to. -/
theorem find?_eq_of_nodup_mem {κ α : Type} [DecidableEq κ] :
    ∀ (l : List (κ × KVEntry α)), (l.map Prod.fst).Nodup →
      ∀ p ∈ l, l.find? (fun q => decide (q.1 = p.1)) = some p := by
  intro l
  induction l with
  | nil => intro _ p hp; cases hp
  | cons a l ih =>
    intro hnd p hp
    rw [List.map_cons, List.nodup_cons] at hnd
    rcases List.mem_cons.mp hp with rfl | hpl
    · simp [List.find?]
    · have hne : ¬ (a.1 = p.1) := by
        intro he
        exact hnd.1 (he ▸ List.mem_map_of_mem Prod.fst hpl)
    -- the head key differs, so the search continues in the tail
      rw [List.find?_cons]
      simp only [hne, decide_eq_true_eq, if_false, decide_False]
      exact ih hnd.2 p hpl

/-- In a store with no duplicate keys, `get` at a member entry's key
returns that entry's value, subject to its TTL. -/
theorem get_eq_of_mem {κ α : Type} [DecidableEq κ] (scale : Nat)
    (st : KVStore κ α) (now : Nat) (p : κ × KVEntry α)
    (hnd : st.NodupKeys) (hp : p ∈ st.entries) :
    KVStore.get scale st now p.1
      = if KVStore.livesAt scale p.2 now then some p.2.value else none := by
  unfold KVStore.get KVStore.findEntry
  rw [find?_eq_of_nodup_mem st.entries hnd p hp]
  rfl

/-- A fold of conditional deletes equals one filter over the entries. -/
theorem foldl_del_entries {κ α : Type} [DecidableEq κ] (cond : κ → Bool) :
    ∀ (ks : List κ) (st : KVStore κ α),
      (ks.foldl (fun acc k => if cond k then KVStore.del acc k else acc)
          st).entries
        = st.entries.filter (fun p => !(decide (p.1 ∈ ks) && cond p.1)) := by
  intro ks
  induction ks with
  | nil => intro st; simp
  | cons k ks ih =>
    intro st
    simp only [List.foldl_cons]
    by_cases hk : cond k
    · rw [if_pos hk, ih]
      show ((KVStore.del st k).entries).filter _ = _
      unfold KVStore.del
      rw [List.filter_filter]
      apply List.filter_congr
      intro p _
      by_cases hpk : p.1 = k <;> by_cases hmem : p.1 ∈ ks <;>
        simp [hpk, hmem, hk, List.mem_cons]
    · rw [if_neg hk, ih]
      apply List.filter_congr
      intro p _
      by_cases hpk : p.1 = k <;> by_cases hmem : p.1 ∈ ks <;>
        simp [hpk, hmem, hk, List.mem_cons]

/-- The session-revocation scan as a fold of conditional deletes. -/
theorem revokeAll_eq_foldl_del (st : SessionService.SessStore) (now : Nat)
    (userId : String) :
    SessionService.revokeAllUserSessions st now userId
      = (KVStore.keysLive 1000 st now).foldl
          (fun acc k =>
            if (match KVStore.get 1000 st now k with
                | some s => decide (s.userId = userId)
                | none => false) then
              KVStore.del acc k
            else acc)
          st := by
  unfold SessionService.revokeAllUserSessions
  apply foldl_fun_congr
  intro acc k
  cases h : KVStore.get 1000 st now k with
  | none => simp [h]
  | some s => by_cases hu : s.userId = userId <;> simp [h, hu]

/-- The net effect of `revokeAllUserSessions` on a well-formed store:
exactly the live entries of the matching user are removed. -/
theorem revokeAll_entries (st : SessionService.SessStore) (now : Nat)
    (userId : String) (hnd : st.NodupKeys) :
    (SessionService.revokeAllUserSessions st now userId).entries
      = st.entries.filter
          (fun p => !(KVStore.livesAt 1000 p.2 now &&
            decide (p.2.value.userId = userId))) := by
  rw [revokeAll_eq_foldl_del, foldl_del_entries]
  apply List.filter_congr
  intro p hp
  by_cases hlive : KVStore.livesAt 1000 p.2 now
  · have hget := get_eq_of_mem 1000 st now p hnd hp
    rw [if_pos hlive] at hget
    have hmem : p.1 ∈ KVStore.keysLive 1000 st now := by
      unfold KVStore.keysLive
      exact List.mem_map_of_mem _ (List.mem_filter.mpr ⟨hp, hlive⟩)
    simp [hget, hmem, hlive]
  · have hget := get_eq_of_mem 1000 st now p hnd hp
    rw [if_neg hlive] at hget
    simp [hget, hlive]

/-- Filtering entries preserves key uniqueness. -/
theorem nodupKeys_filter {κ α : Type} [DecidableEq κ] (st : KVStore κ α)
    (q : κ × KVEntry α → Bool) (hnd : st.NodupKeys) :
    KVStore.NodupKeys (⟨st.entries.filter q⟩ : KVStore κ α) := by
  unfold KVStore.NodupKeys at hnd ⊢
  exact List.Nodup.sublist
    (List.Sublist.map _ (List.filter_sublist st.entries)) hnd

/-- The session scan-and-filter read, characterized over the entries of
a well-formed store. -/
theorem getUserSessions_eq (st : SessionService.SessStore) (now : Nat)
    (userId : String) (hnd : st.NodupKeys) :
    SessionService.getUserSessions st now userId
      = (st.entries.filter (fun p => KVStore.livesAt 1000 p.2 now)).filterMap
          (fun p => if p.2.value.userId = userId then some p.2.value
            else none) := by
  unfold SessionService.getUserSessions KVStore.keysLive
  rw [List.filterMap_map]
  apply List.filterMap_congr
  intro p hp
  have hpl := List.mem_filter.mp hp
  have hget := get_eq_of_mem 1000 st now p hnd hpl.1
  rw [if_pos hpl.2] at hget
  simp only [Function.comp_apply, hget]

/-- Claim C8: on a well-formed store, `revokeAllUserSessions(userId)`
deletes every live session of that user and leaves every other user's
sessions unchanged: afterwards `getUserSessions(userId)` is empty, other
users' session lists are unchanged, and any individual session of
another user is still retrievable by id. -/
theorem claim_C8_revokeAll_frame (st : SessionService.SessStore)
    (now : Nat) (userId : String) (hnd : st.NodupKeys) :
    SessionService.getUserSessions
        (SessionService.revokeAllUserSessions st now userId) now userId
      = [] ∧
      (∀ other, other ≠ userId →
        SessionService.getUserSessions
            (SessionService.revokeAllUserSessions st now userId) now other
          = SessionService.getUserSessions st now other) ∧
      (∀ sid s, SessionService.getSession st now sid = some s →
        s.userId ≠ userId →
        SessionService.getSession
            (SessionService.revokeAllUserSessions st now userId) now sid
          = some s) := by
  have hent := revokeAll_entries st now userId hnd
  have hnd2 : (SessionService.revokeAllUserSessions st now userId).NodupKeys := by
    unfold KVStore.NodupKeys
    rw [hent]
    exact List.Nodup.sublist
      (List.Sublist.map _ (List.filter_sublist st.entries)) hnd
  refine ⟨?_, ?_, ?_⟩
  · rw [getUserSessions_eq _ _ _ hnd2, hent, List.filter_filter]
    rw [List.filterMap_eq_nil_iff]
    intro p hp
    have hcond := (List.mem_filter.mp hp).2
    simp only [Bool.and_eq_true, Bool.not_eq_true', Bool.and_eq_false_iff,
      decide_eq_false_iff_not] at hcond
    rcases hcond with ⟨hlive, hml⟩
    rcases hml with hdead | hneq
    · rw [hlive] at hdead; cases hdead
    · simp [hneq]
  · intro other hne
    rw [getUserSessions_eq _ _ _ hnd2, getUserSessions_eq _ _ _ hnd, hent,
      List.filter_filter, filterMap_over_filter, filterMap_over_filter]
    apply List.filterMap_congr
    intro p _
    by_cases hlive : KVStore.livesAt 1000 p.2 now
    · by_cases huid : p.2.value.userId = userId
      · have h2 : ¬ (userId = other) := fun hc => hne hc.symm
        simp [hlive, huid, h2]
      · simp [hlive, huid]
    · simp [hlive]
  · intro sid s hget hneq
    unfold SessionService.getSession KVStore.get KVStore.findEntry at hget
    cases hfind : List.find? (fun q => decide (q.1 = sid)) st.entries with
    | none => rw [hfind] at hget; cases hget
    | some q =>
      rw [hfind] at hget
      simp only [Option.map_some'] at hget
      by_cases hlive : KVStore.livesAt 1000 q.2 now
      · rw [if_pos hlive] at hget
        have hval : q.2.value = s := by
          injection hget
        have hq1 : q.1 = sid := by
          have := List.find?_some hfind
          simpa using this
        have hqm : q ∈ st.entries := List.mem_of_find?_eq_some hfind
        have hqs : q ∈ (SessionService.revokeAllUserSessions st now
            userId).entries := by
          rw [hent]
          refine List.mem_filter.mpr ⟨hqm, ?_⟩
          have : ¬ (q.2.value.userId = userId) := by
            rw [hval]; exact hneq
          simp [this]
        have hres := get_eq_of_mem 1000
          (SessionService.revokeAllUserSessions st now userId) now q hnd2 hqs
        rw [if_pos hlive] at hres
        unfold SessionService.getSession
        rw [← hq1, hres, hval]
      · rw [if_neg hlive] at hget; cases hget

/-- Witness for C8 at the spec's own scenario: three sessions for user A
and one for user B; after revoke-all for A, A has no sessions while B's
session list and record are intact. -/
theorem claim_C8_witness :
    SessionService.getUserSessions
        (SessionService.revokeAllUserSessions
          ((((SessionService.createSession ⟨[]⟩ 0 "sa1" "userA" none
            none).1.setEx 0 604800 "sa2"
              ⟨"sa2", "userA", 0, 604800000, 0, none, none⟩).setEx 0 604800
                "sa3" ⟨"sa3", "userA", 0, 604800000, 0, none, none⟩).setEx 0
                  604800 "sb1" ⟨"sb1", "userB", 0, 604800000, 0, none, none⟩)
          5 "userA")
        5 "userA"
      = [] ∧
      SessionService.getSession
        (SessionService.revokeAllUserSessions
          ((((SessionService.createSession ⟨[]⟩ 0 "sa1" "userA" none
            none).1.setEx 0 604800 "sa2"
              ⟨"sa2", "userA", 0, 604800000, 0, none, none⟩).setEx 0 604800
                "sa3" ⟨"sa3", "userA", 0, 604800000, 0, none, none⟩).setEx 0
                  604800 "sb1" ⟨"sb1", "userB", 0, 604800000, 0, none, none⟩)
          5 "userA")
        5 "sb1"
      = some ⟨"sb1", "userB", 0, 604800000, 0, none, none⟩ := by
  have h := claim_C8_revokeAll_frame
    ((((SessionService.createSession ⟨[]⟩ 0 "sa1" "userA" none
      none).1.setEx 0 604800 "sa2"
        ⟨"sa2", "userA", 0, 604800000, 0, none, none⟩).setEx 0 604800
          "sa3" ⟨"sa3", "userA", 0, 604800000, 0, none, none⟩).setEx 0
            604800 "sb1" ⟨"sb1", "userB", 0, 604800000, 0, none, none⟩)
    5 "userA" (by decide)
  exact ⟨h.1, h.2.2 "sb1" ⟨"sb1", "userB", 0, 604800000, 0, none, none⟩
    (by decide) (by decide)⟩
